import Mathlib

/-!
Verification of the `fiscal` package of the `itc` repository.

The package computes start/end instants of Apple-style fiscal years,
quarters and periods, anchored at 2005-09-25 00:00:00 UTC, and classifies
arbitrary instants into the containing fiscal year / quarter / period.

Shallow embedding conventions:

* A Go `time.Time` (always in UTC here) is modelled as an `Int`: the number
  of nanoseconds since 1970-01-01 00:00:00 UTC.  A Go `time.Duration` is
  likewise an `Int` number of nanoseconds (the original is an `int64`; no
  computation in the package comes near the `int64` range, so unbounded
  integers are a faithful model).
* `time.Time.Year()/ Day()` are the proleptic-Gregorian calendar fields of
  the instant in UTC.  We model them by the standard civil-from-days
  conversion on the floor day number of the instant, which is exactly the
  calendar that Go's `time` package implements for UTC.
* Go's integer division (`/` on `int`, truncation towards zero) is
  `goDiv`; Go's `%` is `goMod`.  For the nonnegative operands that
  actually occur in this package they agree with floor division.
* The loop `for start = first; true; start = end { ... }` in `Year` and
  the forward scans in `QuarterForDate`/`PeriodForDate` have no bound in
  the source; they are modelled by structurally recursive functions with
  an explicit fuel parameter returning `none` when the fuel runs out.
  "The loop terminates" is expressed as "`some` is returned for a
  suitable (hence, by `yearLoop_mono`-style lemmas, any larger) fuel";
  "the loop runs forever" as "`none` is returned for every fuel".
* The two floating-point steps in the source are modelled exactly:
  `end.Sub(start).Hours()/24 > 364` compares durations that are at least
  half a week away from the threshold, so it is equivalent to the exact
  integer comparison `364*Day < end - start`; and
  `int(d.Round(time.Hour).Hours() / 24)` divides an exact integer number
  of hours (far below 2^53) by 24 and truncates, which is `goDiv h 24`.
-/

namespace GoTime

/-- One hour in nanoseconds (`time.Hour`). -/
def Hour : Int := 3600 * 1000000000

/-- One day in nanoseconds. -/
def nsPerDay : Int := 24 * Hour

/-- Go's truncating integer division (used with positive divisors only). -/
def goDiv (a b : Int) : Int := if 0 ≤ a then a / b else -((-a) / b)

/-- Go's remainder operation (sign of the dividend, positive divisors only). -/
def goMod (a b : Int) : Int := a - b * goDiv a b

/-- Day number (days since 1970-01-01) of a proleptic-Gregorian civil date.
Standard era-based conversion; `/` on `Int` is floor division for the
positive literal divisors used here. -/
def daysFromCivil (y m d : Int) : Int :=
  let yy := if m ≤ 2 then y - 1 else y
  let era := yy / 400
  let yoe := yy - era * 400
  let mp := if 2 < m then m - 3 else m + 9
  let doy := (153 * mp + 2) / 5 + d - 1
  let doe := yoe * 365 + yoe / 4 - yoe / 100 + doy
  era * 146097 + doe - 719468

/-- Civil date `(year, month, day)` of a day number; inverse of
`daysFromCivil`. -/
def civilFromDays (z : Int) : Int × Int × Int :=
  let zz := z + 719468
  let era := zz / 146097
  let doe := zz - era * 146097
  let yoe := (doe - doe / 1460 + doe / 36524 - doe / 146096) / 365
  let y := yoe + era * 400
  let doy := doe - (365 * yoe + yoe / 4 - yoe / 100)
  let mp := (5 * doy + 2) / 153
  let d := doy - (153 * mp + 2) / 5 + 1
  let m := if mp < 10 then mp + 3 else mp - 9
  (if m ≤ 2 then y + 1 else y, m, d)

/-- Model of `t.Year()` for an instant `t` (nanoseconds, UTC). -/
def year (t : Int) : Int := (civilFromDays (t / nsPerDay)).1

/-- Model of `t.Day()` (day of month) for an instant `t` (nanoseconds, UTC). -/
def day (t : Int) : Int := (civilFromDays (t / nsPerDay)).2.2

/-- Model of `time.Duration.Round(m)` for a positive multiple `m`, ignoring the
`int64` overflow escapes of the original: round to the nearest multiple
of `m`, halfway values away from zero. -/
def durRound (d m : Int) : Int :=
  let r := goMod d m
  if d < 0 then
    if -r + -r < m then d + -r else d - m + -r
  else
    if r + r < m then d - r else d + m - r

end GoTime

namespace fiscal

/-- The package constant `Day = 24 * time.Hour`. -/
def Day : Int := 24 * GoTime.Hour

/-- The anchor instant `time.Date(2005, time.September, 25, 0, 0, 0, 0, time.UTC)`,
start of Apple's 2006 fiscal year (local `first` in `Year`). -/
def first : Int := GoTime.daysFromCivil 2005 9 25 * GoTime.nsPerDay

/-- The body of the unbounded loop in `Year`:

    for start = first; true; start = end {
        end = start.Add(364 * Day)
        if end.Day() < 25 { end = end.Add(7 * Day) }
        if end.Year() >= year { return start, end.Add(-time.Nanosecond) }
    }

with an explicit fuel; `none` means the fuel was exhausted. -/
def yearLoop (year : Int) : Nat → Int → Option (Int × Int)
  | 0, _ => none
  | fuel + 1, start =>
    let e0 := start + 364 * Day
    let e := if GoTime.day e0 < 25 then e0 + 7 * Day else e0
    if year ≤ GoTime.year e then some (start, e - 1)
    else yearLoop year fuel e

/-- Function `Year` returns the start and end of a fiscal year (end = last nanosecond
before the next year's start).  The fuel `(year - 2005).toNat + 1` is
sufficient for every input (proved below); `yearLoop_mono` shows the
result is fuel-independent once `some`. -/
def Year (year : Int) : Option (Int × Int) :=
  yearLoop year ((year - 2005).toNat + 1) first

/-- Function `Quarter` returns the start and end of a fiscal quarter; the quarter
index is clamped to `[1,4]`.  `364 * Day < e - s` is the exact form of the
float test `end.Sub(start).Hours()/24 > 364` (the operands are at least
half a week from the threshold). -/
def Quarter (year quarter : Int) : Option (Int × Int) :=
  (Year year).map fun se =>
    let start := se.1
    let e := se.2
    let q0 := if quarter < 1 then 1 else quarter
    let q1 := if 4 < q0 then 4 else q0
    let q := q1 - 1
    let qstart0 := q * 91
    let qend0 := (q + 1) * 91
    let qstart := if 364 * Day < e - start
      then qstart0 + GoTime.goDiv (q + 3) 4 * 7 else qstart0
    let qend := if 364 * Day < e - start
      then qend0 + GoTime.goDiv (q + 4) 4 * 7 else qend0
    (start + qstart * Day, start + qend * Day - 1)

/-- Function `Period` returns the start and end of a fiscal period (35 or 28 days);
the period index is clamped to `[1,12]`. -/
def Period (year period : Int) : Option (Int × Int) :=
  (Year year).map fun se =>
    let start := se.1
    let e := se.2
    let p0 := if period < 1 then 1 else period
    let p1 := if 12 < p0 then 12 else p0
    let p := p1 - 1
    let pstart0 := p * 28 + GoTime.goDiv (p + 2) 3 * 7
    let pend0 := (p + 1) * 28 + GoTime.goDiv (p + 3) 3 * 7
    let pstart := if 364 * Day < e - start
      then pstart0 + GoTime.goDiv (p + 9) 12 * 7 else pstart0
    let pend := if 364 * Day < e - start
      then pend0 + GoTime.goDiv (p + 10) 12 * 7 else pend0
    (start + pstart * Day, start + pend * Day - 1)

/-- Function `YearForDate` returns the fiscal year containing a date. -/
def YearForDate (date : Int) : Option Int :=
  (Year (GoTime.year date)).map fun se =>
    if se.2 < date then GoTime.year date + 1 else GoTime.year date

/-- The forward scan of `QuarterForDate` (`for quarter = seed; true; quarter++`),
with fuel. -/
def quarterScan (year date : Int) : Nat → Int → Option (Int × Int)
  | 0, _ => none
  | fuel + 1, quarter =>
    match Quarter year quarter with
    | none => none
    | some se =>
      if ¬date < se.1 ∧ ¬se.2 < date then some (year, quarter)
      else quarterScan year date fuel (quarter + 1)

/-- Function `QuarterForDate` returns the fiscal year and quarter containing a date.
`daysSinceStart := int(date.Sub(start).Round(time.Hour).Hours()/24)`. -/
def QuarterForDate (fuel : Nat) (date : Int) : Option (Int × Int) :=
  (Year (GoTime.year date)).bind fun se =>
    let year := if se.2 < date then GoTime.year date + 1 else GoTime.year date
    let start := if se.2 < date then se.2 + 1 else se.1
    let daysSinceStart :=
      GoTime.goDiv (GoTime.durRound (date - start) GoTime.Hour / GoTime.Hour) 24
    quarterScan year date fuel (1 + GoTime.goDiv daysSinceStart 98)

/-- The forward scan of `PeriodForDate`, with fuel. -/
def periodScan (year date : Int) : Nat → Int → Option (Int × Int)
  | 0, _ => none
  | fuel + 1, period =>
    match Period year period with
    | none => none
    | some se =>
      if ¬date < se.1 ∧ ¬se.2 < date then some (year, period)
      else periodScan year date fuel (period + 1)

/-- Function `PeriodForDate` returns the fiscal year and period containing a date. -/
def PeriodForDate (fuel : Nat) (date : Int) : Option (Int × Int) :=
  (Year (GoTime.year date)).bind fun se =>
    let year := if se.2 < date then GoTime.year date + 1 else GoTime.year date
    let start := if se.2 < date then se.2 + 1 else se.1
    let daysSinceStart :=
      GoTime.goDiv (GoTime.durRound (date - start) GoTime.Hour / GoTime.Hour) 24
    periodScan year date fuel (1 + GoTime.goDiv daysSinceStart 35)

/-- Day-number form of one iteration of the `Year` loop: from a fiscal year
start day number, the candidate end day number (start of the next year). -/
def stepEnd (s : Int) : Int :=
  if (GoTime.civilFromDays (s + 364)).2.2 < 25 then s + 371 else s + 364

/-- Day numbers of the successive fiscal year starts computed by the loop,
beginning at the anchor 2005-09-25. -/
def startDays : Nat → Int
  | 0 => GoTime.daysFromCivil 2005 9 25
  | n + 1 => stepEnd (startDays n)

/-- The loop invariant: a fiscal year start lies between Sep 25 and Oct 1
(inclusive) of its civil year. -/
def InWindow (y s : Int) : Prop :=
  (∃ k, 25 ≤ k ∧ k ≤ 30 ∧ s = GoTime.daysFromCivil y 9 k) ∨
    s = GoTime.daysFromCivil y 10 1

/-- Start day-offset of (1-based) quarter `q` in a year of length `L` days. -/
def qstartOff (L q : Int) : Int :=
  (q - 1) * 91 + (if 364 < L then (q + 2) / 4 * 7 else 0)

/-- End day-offset (exclusive) of quarter `q` in a year of length `L` days. -/
def qendOff (L q : Int) : Int :=
  q * 91 + (if 364 < L then (q + 3) / 4 * 7 else 0)

/-- Start day-offset of (1-based) period `p` in a year of length `L` days. -/
def pstartOff (L p : Int) : Int :=
  (p - 1) * 28 + (p + 1) / 3 * 7 + (if 364 < L then (p + 8) / 12 * 7 else 0)

/-- End day-offset (exclusive) of period `p` in a year of length `L` days. -/
def pendOff (L p : Int) : Int :=
  p * 28 + (p + 2) / 3 * 7 + (if 364 < L then (p + 9) / 12 * 7 else 0)

/-- Length of a resolved span, in nanoseconds (end is inclusive). -/
def spanLen (o : Option (Int × Int)) : Option Int :=
  o.map fun se => se.2 + 1 - se.1

end fiscal

/-- Instant 2005-12-31 23:30:00 UTC: inside the last half hour of day 98 of the
(371-day) anchor fiscal year, still inside its first quarter. -/
def quarterOvershootDate : Int := fiscal.first + 97 * fiscal.Day + 84600 * 1000000000

/-- Instant 2005-10-29 23:30:00 UTC: inside the last half hour of day 35 of the
anchor fiscal year, still inside its first period. -/
def periodOvershootDate : Int := fiscal.first + 34 * fiscal.Day + 84600 * 1000000000

namespace GoTime

/-- Closed form of `daysFromCivil` for September dates. -/
theorem daysFromCivil_sep (y k : Int) :
    daysFromCivil y 9 k + 719468 =
      146097 * (y / 400) + (365 * (y % 400) + y % 400 / 4 - y % 400 / 100) + 183 + k := by
  simp only [daysFromCivil]
  norm_num
  omega

/-- Closed form of `daysFromCivil` for October dates. -/
theorem daysFromCivil_oct (y k : Int) :
    daysFromCivil y 10 k + 719468 =
      146097 * (y / 400) + (365 * (y % 400) + y % 400 / 4 - y % 400 / 100) + 213 + k := by
  simp only [daysFromCivil]
  norm_num
  omega

/-- Closed form of `daysFromCivil` for January dates (march-year `y - 1`). -/
theorem daysFromCivil_jan (y k : Int) :
    daysFromCivil y 1 k + 719468 =
      146097 * ((y - 1) / 400) +
        (365 * ((y - 1) % 400) + (y - 1) % 400 / 4 - (y - 1) % 400 / 100) + 305 + k := by
  simp only [daysFromCivil]
  norm_num
  omega

/-- Closed form of `daysFromCivil` for March dates. -/
theorem daysFromCivil_mar (y k : Int) :
    daysFromCivil y 3 k + 719468 =
      146097 * (y / 400) + (365 * (y % 400) + y % 400 / 4 - y % 400 / 100) + k - 1 := by
  simp only [daysFromCivil]
  norm_num
  omega

/-- Year-of-era extraction: the heart of `civilFromDays`.  `E` encodes day
`doy` (from March 1) of march-year `rr` of an era; `doy = 365` is only a
real date if the march-year ends in a Feb 29. -/
theorem yoe_extract (rr doy : Int) (hr : 0 ≤ rr) (hr' : rr ≤ 399) (hd : 0 ≤ doy)
    (hd' : doy ≤ 364 ∨ (doy = 365 ∧ (rr + 1) % 4 = 0 ∧ ((rr + 1) % 100 ≠ 0 ∨ rr = 399))) :
    ((365*rr + rr/4 - rr/100 + doy) - (365*rr + rr/4 - rr/100 + doy)/1460
      + (365*rr + rr/4 - rr/100 + doy)/36524
      - (365*rr + rr/4 - rr/100 + doy)/146096) / 365 = rr := by
  rcases Int.lt_or_le (365*rr + rr/4 - rr/100 + doy) (1460*(rr/4) + 1460) with ha | ha
  · have h1 : (365*rr + rr/4 - rr/100 + doy)/1460 = rr/4 := by omega
    rcases Int.lt_or_le (365*rr + rr/4 - rr/100 + doy) (36524*(rr/100) + 36524) with hb | hb
    · have h2 : (365*rr + rr/4 - rr/100 + doy)/36524 = rr/100 := by omega
      have h3 : (365*rr + rr/4 - rr/100 + doy)/146096 = 0 := by omega
      omega
    · have h2 : (365*rr + rr/4 - rr/100 + doy)/36524 = rr/100 + 1 := by omega
      have h3 : (365*rr + rr/4 - rr/100 + doy)/146096 = 0 := by omega
      omega
  · have h1 : (365*rr + rr/4 - rr/100 + doy)/1460 = rr/4 + 1 := by omega
    rcases Int.lt_or_le (365*rr + rr/4 - rr/100 + doy) (36524*(rr/100) + 36524) with hb | hb
    · have h2 : (365*rr + rr/4 - rr/100 + doy)/36524 = rr/100 := by omega
      have h3 : (365*rr + rr/4 - rr/100 + doy)/146096 = 0 := by omega
      omega
    · have h2 : (365*rr + rr/4 - rr/100 + doy)/36524 = rr/100 + 1 := by omega
      rcases Int.lt_or_le (365*rr + rr/4 - rr/100 + doy) 146096 with hc | hc
      · have h3 : (365*rr + rr/4 - rr/100 + doy)/146096 = 0 := by omega
        omega
      · have h3 : (365*rr + rr/4 - rr/100 + doy)/146096 = 1 := by omega
        omega

/-- Master specification of `civilFromDays` on a (era, march-year,
day-of-march-year) decomposition of the day number. -/
theorem civilFromDays_spec (z q rr doy : Int)
    (h : z + 719468 = 146097*q + (365*rr + rr/4 - rr/100 + doy))
    (hr : 0 ≤ rr) (hr' : rr ≤ 399) (hd : 0 ≤ doy)
    (hd' : doy ≤ 364 ∨ (doy = 365 ∧ (rr + 1) % 4 = 0 ∧ ((rr + 1) % 100 ≠ 0 ∨ rr = 399))) :
    civilFromDays z =
      (if doy < 306 then 400*q + rr else 400*q + rr + 1,
       if (5*doy+2)/153 < 10 then (5*doy+2)/153 + 3 else (5*doy+2)/153 - 9,
       doy - (153*((5*doy+2)/153)+2)/5 + 1) := by
  have hera : (z + 719468) / 146097 = q := by omega
  have hdoe : z + 719468 - q * 146097 = 365*rr + rr/4 - rr/100 + doy := by omega
  have hyoe := yoe_extract rr doy hr hr' hd hd'
  simp only [civilFromDays, hera, hdoe, hyoe]
  have hdoy : 365*rr + rr/4 - rr/100 + doy - (365 * rr + rr / 4 - rr / 100) = doy := by omega
  rw [hdoy]
  rcases Int.lt_or_le ((5*doy+2)/153) 10 with hm | hm
  · have hm3 : ¬((5*doy+2)/153 + 3 ≤ 2) := by omega
    have hdoy306 : doy < 306 := by omega
    simp only [if_pos hm, if_neg hm3, if_pos hdoy306, Prod.mk.injEq, and_true]
    omega
  · have hm3 : (5*doy+2)/153 - 9 ≤ 2 := by omega
    have hdoy306 : ¬(doy < 306) := by omega
    simp only [if_neg (Int.not_lt.mpr hm), if_pos hm3, if_neg hdoy306, Prod.mk.injEq, and_true]
    omega

/-- Roundtrip for September dates. -/
theorem civil_sep (y k : Int) (h1 : 1 ≤ k) (h2 : k ≤ 30) :
    civilFromDays (daysFromCivil y 9 k) = (y, 9, k) := by
  have hform := daysFromCivil_sep y k
  have hspec := civilFromDays_spec (daysFromCivil y 9 k) (y / 400) (y % 400) (183 + k)
    (by omega) (by omega) (by omega) (by omega) (by omega)
  rw [hspec]
  have hmp : (5 * (183 + k) + 2) / 153 = 6 := by omega
  rw [hmp]
  norm_num
  constructor
  · have : (183 + k : Int) < 306 := by omega
    rw [if_pos this]
    omega
  · omega

/-- Roundtrip for October 1. -/
theorem civil_oct1 (y : Int) :
    civilFromDays (daysFromCivil y 10 1) = (y, 10, 1) := by
  have hform := daysFromCivil_oct y 1
  have hspec := civilFromDays_spec (daysFromCivil y 10 1) (y / 400) (y % 400) 214
    (by omega) (by omega) (by omega) (by omega) (by omega)
  rw [hspec]
  have hmp : (5 * (214 : Int) + 2) / 153 = 7 := by norm_num
  rw [hmp]
  norm_num
  omega

/-- Sharpened year length: the march-year starting in September of year `y`
is 366 days exactly when it contains a Feb 29, expressed on the era
decomposition. -/
theorem year_delta_iff (y : Int) :
    (daysFromCivil (y + 1) 9 1 = daysFromCivil y 9 1 + 366 ↔
      ((y % 400 + 1) % 4 = 0 ∧ ((y % 400 + 1) % 100 ≠ 0 ∨ y % 400 = 399))) ∧
    (daysFromCivil (y + 1) 9 1 = daysFromCivil y 9 1 + 365 ∨
      daysFromCivil (y + 1) 9 1 = daysFromCivil y 9 1 + 366) := by
  have h1 := daysFromCivil_sep y 1
  have h2 := daysFromCivil_sep (y + 1) 1
  rcases eq_or_ne (y % 400) 399 with h399 | h399
  · constructor
    · constructor
      · intro _
        omega
      · intro _
        omega
    · right
      omega
  · rcases eq_or_ne ((y + 1) % 400 / 100) (y % 400 / 100) with hc | hc
    · rcases eq_or_ne ((y + 1) % 400 / 4) (y % 400 / 4) with hq | hq
      · constructor
        · constructor
          · intro hx
            omega
          · intro hx
            omega
        · left
          omega
      · constructor
        · constructor
          · intro _
            omega
          · intro _
            omega
        · right
          omega
    · constructor
      · constructor
        · intro hx
          omega
        · intro hx
          omega
      · left
        omega

/-- January 1 of year `c+1` is 122 days after September 1 of year `c`. -/
theorem jan1_eq (c : Int) :
    daysFromCivil (c + 1) 1 1 = daysFromCivil c 9 1 + 122 := by
  have h1 := daysFromCivil_jan (c + 1) 1
  have h2 := daysFromCivil_sep c 1
  omega

/-- March 1 of year `c` is 184 days before September 1 of year `c`. -/
theorem mar1_eq (c : Int) :
    daysFromCivil c 3 1 = daysFromCivil c 9 1 - 184 := by
  have h1 := daysFromCivil_mar c 1
  have h2 := daysFromCivil_sep c 1
  omega

/-- Calendar-year extraction: any day number between Jan 1 of year `c`
(inclusive) and Jan 1 of year `c+1` (exclusive) has civil year `c`. -/
theorem year_of_days (c z : Int) (h1 : daysFromCivil c 1 1 ≤ z)
    (h2 : z < daysFromCivil (c + 1) 1 1) :
    (civilFromDays z).1 = c := by
  have hjan : daysFromCivil c 1 1 = daysFromCivil (c - 1) 9 1 + 122 := by
    have := jan1_eq (c - 1)
    rw [show c - 1 + 1 = c by ring] at this
    exact this
  have hjan2 := jan1_eq c
  have hsepA := daysFromCivil_sep (c - 1) 1
  have hsepB := daysFromCivil_sep c 1
  have hmar := mar1_eq c
  have hdelta := year_delta_iff (c - 1)
  rw [show c - 1 + 1 = c by ring] at hdelta
  rcases Int.lt_or_le z (daysFromCivil c 3 1) with hz | hz
  · -- z in Jan or Feb of year c: march-year c - 1
    have hspec := civilFromDays_spec z ((c - 1) / 400) ((c - 1) % 400)
      (z + 719468 - (146097 * ((c - 1) / 400) +
        (365 * ((c - 1) % 400) + (c - 1) % 400 / 4 - (c - 1) % 400 / 100)))
      (by omega) (by omega) (by omega) (by omega) (by omega)
    rw [hspec]
    have hge : ¬(z + 719468 - (146097 * ((c - 1) / 400) +
        (365 * ((c - 1) % 400) + (c - 1) % 400 / 4 - (c - 1) % 400 / 100)) < 306) := by
      omega
    rw [if_neg hge]
    omega
  · -- z in Mar..Dec of year c: march-year c
    have hspec := civilFromDays_spec z (c / 400) (c % 400)
      (z + 719468 - (146097 * (c / 400) +
        (365 * (c % 400) + c % 400 / 4 - c % 400 / 100)))
      (by omega) (by omega) (by omega) (by omega) (by omega)
    rw [hspec]
    have hlt : z + 719468 - (146097 * (c / 400) +
        (365 * (c % 400) + c % 400 / 4 - c % 400 / 100)) < 306 := by
      omega
    rw [if_pos hlt]
    omega

end GoTime

namespace fiscal

/-- A civil year is 365 or 366 days long, in the era decomposition used by
`daysFromCivil`. -/
theorem year_delta (y : Int) :
    GoTime.daysFromCivil (y + 1) 9 1 = GoTime.daysFromCivil y 9 1 + 365 ∨
    GoTime.daysFromCivil (y + 1) 9 1 = GoTime.daysFromCivil y 9 1 + 366 := by
  have h1 := GoTime.daysFromCivil_sep y 1
  have h2 := GoTime.daysFromCivil_sep (y + 1) 1
  rcases eq_or_ne (y % 400) 399 with h399 | h399
  · right
    omega
  · rcases eq_or_ne ((y + 1) % 400 / 100) (y % 400 / 100) with hc | hc
    · rcases eq_or_ne ((y + 1) % 400 / 4) (y % 400 / 4) with hq | hq
      · left
        omega
      · right
        omega
    · left
      omega

theorem stepEnd_window (y s : Int) (h : InWindow y s) :
    InWindow (y + 1) (stepEnd s) := by
  have hf0 := GoTime.daysFromCivil_sep (y + 1) 1
  have hf1 := GoTime.daysFromCivil_sep y 1
  have hdelta := year_delta y
  have hj : ∃ j, s + 364 = GoTime.daysFromCivil (y + 1) 9 j ∧ 23 ≤ j ∧ j ≤ 30 := by
    refine ⟨s + 364 - GoTime.daysFromCivil (y + 1) 9 1 + 1, ?_, ?_, ?_⟩
    · have hfj := GoTime.daysFromCivil_sep (y + 1)
        (s + 364 - GoTime.daysFromCivil (y + 1) 9 1 + 1)
      omega
    · rcases h with ⟨k, hk1, hk2, hs⟩ | hs
      · have hfk := GoTime.daysFromCivil_sep y k
        omega
      · have hfk := GoTime.daysFromCivil_oct y 1
        omega
    · rcases h with ⟨k, hk1, hk2, hs⟩ | hs
      · have hfk := GoTime.daysFromCivil_sep y k
        omega
      · have hfk := GoTime.daysFromCivil_oct y 1
        omega
  obtain ⟨j, hj, hj1, hj2⟩ := hj
  have hday : (GoTime.civilFromDays (s + 364)).2.2 = j := by
    rw [hj, GoTime.civil_sep (y + 1) j (by omega) (by omega)]
  rw [InWindow, stepEnd, hday]
  rcases Int.lt_or_le j 25 with hlt | hle
  · rw [if_pos hlt]
    rcases (by omega : j = 23 ∨ j = 24) with h23 | h24
    · refine Or.inl ⟨30, by omega, by omega, ?_⟩
      have hf30 := GoTime.daysFromCivil_sep (y + 1) 30
      have hfj := GoTime.daysFromCivil_sep (y + 1) j
      omega
    · refine Or.inr ?_
      have hoct := GoTime.daysFromCivil_oct (y + 1) 1
      have hfj := GoTime.daysFromCivil_sep (y + 1) j
      omega
  · rw [if_neg (by omega)]
    exact Or.inl ⟨j, hle, by omega, hj⟩

theorem startDays_window (n : Nat) : InWindow (2005 + (n : Int)) (startDays n) := by
  induction n with
  | zero =>
    refine Or.inl ⟨25, by omega, by omega, ?_⟩
    norm_num [startDays]
  | succ n ih =>
    have h := stepEnd_window _ _ ih
    have hc : (2005 : Int) + (n : Int) + 1 = 2005 + ((n + 1 : Nat) : Int) := by
      push_cast
      ring
    rw [hc] at h
    exact h

theorem window_year (y s : Int) (h : InWindow y s) :
    (GoTime.civilFromDays s).1 = y := by
  rcases h with ⟨k, hk1, hk2, hs⟩ | hs
  · rw [hs, GoTime.civil_sep y k (by omega) (by omega)]
  · rw [hs, GoTime.civil_oct1 y]

theorem window_bounds (y s : Int) (h : InWindow y s) :
    GoTime.daysFromCivil y 9 25 ≤ s ∧ s ≤ GoTime.daysFromCivil y 10 1 := by
  have h25 := GoTime.daysFromCivil_sep y 25
  have hoct := GoTime.daysFromCivil_oct y 1
  rcases h with ⟨k, hk1, hk2, hs⟩ | hs
  · have hfk := GoTime.daysFromCivil_sep y k
    omega
  · omega

theorem startDays_year (n : Nat) :
    (GoTime.civilFromDays (startDays n)).1 = 2005 + (n : Int) :=
  window_year _ _ (startDays_window n)

/-- Constant `Day` and the length of a day agree. -/
theorem Day_eq_nsPerDay : Day = GoTime.nsPerDay := rfl

theorem nsPerDay_pos : 0 < GoTime.nsPerDay := by norm_num [GoTime.nsPerDay, GoTime.Hour]

theorem mul_nsPerDay_div (x : Int) : x * GoTime.nsPerDay / GoTime.nsPerDay = x :=
  Int.mul_ediv_cancel x (by norm_num [GoTime.nsPerDay, GoTime.Hour])

theorem year_at_midnight (x : Int) :
    GoTime.year (x * GoTime.nsPerDay) = (GoTime.civilFromDays x).1 := by
  rw [GoTime.year, mul_nsPerDay_div]

/-- One unfolding of the loop of `Year` on a fiscal-year start day number. -/
theorem yearLoop_step (y : Int) (n : Nat) (fuel : Nat) :
    yearLoop y (fuel + 1) (startDays n * GoTime.nsPerDay) =
      if y ≤ 2006 + (n : Int) then
        some (startDays n * GoTime.nsPerDay, startDays (n + 1) * GoTime.nsPerDay - 1)
      else yearLoop y fuel (startDays (n + 1) * GoTime.nsPerDay) := by
  have hday : GoTime.day (startDays n * GoTime.nsPerDay + 364 * Day) =
      (GoTime.civilFromDays (startDays n + 364)).2.2 := by
    rw [GoTime.day, Day_eq_nsPerDay, show startDays n * GoTime.nsPerDay +
      364 * GoTime.nsPerDay = (startDays n + 364) * GoTime.nsPerDay by ring,
      mul_nsPerDay_div]
  have he : (if GoTime.day (startDays n * GoTime.nsPerDay + 364 * Day) < 25
      then startDays n * GoTime.nsPerDay + 364 * Day + 7 * Day
      else startDays n * GoTime.nsPerDay + 364 * Day) =
      startDays (n + 1) * GoTime.nsPerDay := by
    rw [hday, show startDays (n + 1) = stepEnd (startDays n) from rfl, stepEnd]
    split_ifs with hc
    · rw [Day_eq_nsPerDay]
      ring
    · rw [Day_eq_nsPerDay]
      ring
  have hyear : GoTime.year (startDays (n + 1) * GoTime.nsPerDay) = 2005 + ((n + 1 : Nat) : Int) := by
    rw [year_at_midnight, startDays_year]
  simp only [yearLoop]
  rw [he, hyear, show (2005 : Int) + ((n + 1 : Nat) : Int) = 2006 + (n : Int) by push_cast; ring]

theorem yearLoop_char (k : Nat) : ∀ (m fuel : Nat), k < fuel →
    yearLoop (2006 + (m : Int) + (k : Int)) fuel (startDays m * GoTime.nsPerDay) =
      some (startDays (m + k) * GoTime.nsPerDay, startDays (m + k + 1) * GoTime.nsPerDay - 1) := by
  induction k with
  | zero =>
    intro m fuel hf
    obtain ⟨f, rfl⟩ : ∃ f, fuel = f + 1 := ⟨fuel - 1, by omega⟩
    rw [yearLoop_step, if_pos (by push_cast; omega)]
    norm_num
  | succ k ih =>
    intro m fuel hf
    obtain ⟨f, rfl⟩ : ∃ f, fuel = f + 1 := ⟨fuel - 1, by omega⟩
    rw [yearLoop_step, if_neg (by push_cast; omega)]
    have hcast : (2006 : Int) + (m : Int) + ((k + 1 : Nat) : Int) =
        2006 + ((m + 1 : Nat) : Int) + (k : Int) := by
      push_cast
      ring
    rw [hcast, show m + (k + 1) = m + 1 + k by omega]
    exact ih (m + 1) f (by omega)

/-- Characterization of `Year` for fiscal years at or after the anchor. -/
theorem Year_char (y : Int) (h : 2006 ≤ y) :
    Year y = some (startDays (y - 2006).toNat * GoTime.nsPerDay,
                   startDays ((y - 2006).toNat + 1) * GoTime.nsPerDay - 1) := by
  have hfirst : first = startDays 0 * GoTime.nsPerDay := rfl
  rw [Year, hfirst]
  have hchar := yearLoop_char (y - 2006).toNat 0 ((y - 2005).toNat + 1) (by omega)
  have hy : (2006 : Int) + ((0 : Nat) : Int) + (((y - 2006).toNat : Nat) : Int) = y := by
    push_cast
    omega
  rw [hy] at hchar
  simpa using hchar

/-- Function `Year` for inputs at or below the anchor year exits on the first
iteration and returns the anchor fiscal year's boundaries. -/
theorem Year_low (y : Int) (h : y ≤ 2006) :
    Year y = some (startDays 0 * GoTime.nsPerDay, startDays 1 * GoTime.nsPerDay - 1) := by
  rw [Year]
  have hfirst : first = startDays 0 * GoTime.nsPerDay := rfl
  obtain ⟨f, hf⟩ : ∃ f, (y - 2005).toNat + 1 = f + 1 := ⟨(y - 2005).toNat, rfl⟩
  rw [hfirst, hf, yearLoop_step, if_pos (by push_cast; omega)]

/-- Once the loop in `Year` exits with a result, more fuel does not change
it. -/
theorem yearLoop_mono (y : Int) : ∀ (f f2 : Nat), f ≤ f2 → ∀ s r,
    yearLoop y f s = some r → yearLoop y f2 s = some r := by
  intro f
  induction f with
  | zero =>
    intro f2 _ s r h
    exact absurd h (by simp [yearLoop])
  | succ f ih =>
    intro f2 hf s r h
    obtain ⟨g, rfl⟩ : ∃ g, f2 = g + 1 := ⟨f2 - 1, by omega⟩
    simp only [yearLoop] at h ⊢
    split_ifs at h ⊢ <;> first
      | exact h
      | exact ih g (by omega) _ r h

theorem startDays_succ (n : Nat) :
    startDays (n + 1) = startDays n + 364 ∨ startDays (n + 1) = startDays n + 371 := by
  show stepEnd (startDays n) = _ ∨ stepEnd (startDays n) = _
  rw [stepEnd]
  split_ifs
  · right
    ring
  · left
    ring

theorem startDays_succ_iff (n : Nat) :
    startDays (n + 1) = startDays n + 371 ↔
      (GoTime.civilFromDays (startDays n + 364)).2.2 < 25 := by
  show stepEnd (startDays n) = _ ↔ _
  rw [stepEnd]
  split_ifs with hc
  · simp [hc]
  · constructor
    · intro h
      omega
    · intro h
      exact absurd h hc

theorem goDiv_nonneg_eq (a b : Int) (h : 0 ≤ a) : GoTime.goDiv a b = a / b := by
  rw [GoTime.goDiv, if_pos h]

/-- Evaluation of `Quarter` for an in-range quarter index. -/
theorem Quarter_char (y q : Int) (h : 2006 ≤ y) (h1 : 1 ≤ q) (h2 : q ≤ 4) :
    Quarter y q = some
      (startDays (y - 2006).toNat * GoTime.nsPerDay +
        qstartOff (startDays ((y - 2006).toNat + 1) - startDays (y - 2006).toNat) q * Day,
       startDays (y - 2006).toNat * GoTime.nsPerDay +
        qendOff (startDays ((y - 2006).toNat + 1) - startDays (y - 2006).toNat) q * Day - 1) := by
  have hns : GoTime.nsPerDay = 86400000000000 := by norm_num [GoTime.nsPerDay, GoTime.Hour]
  rw [Quarter, Year_char y h, Option.map_some']
  have hq0 : ¬(q < 1) := by omega
  have hq1 : ¬(4 < q) := by omega
  simp only [hq0, if_false, hq1]
  have hleap : (364 * Day < startDays ((y - 2006).toNat + 1) * GoTime.nsPerDay - 1 -
      startDays (y - 2006).toNat * GoTime.nsPerDay) ↔
      364 < startDays ((y - 2006).toNat + 1) - startDays (y - 2006).toNat := by
    rw [Day_eq_nsPerDay]
    constructor
    · intro hx
      nlinarith [hns]
    · intro hx
      nlinarith [hns]
  rw [goDiv_nonneg_eq _ _ (by omega : (0:Int) ≤ q - 1 + 3),
    goDiv_nonneg_eq _ _ (by omega : (0:Int) ≤ q - 1 + 4)]
  rw [qstartOff, qendOff]
  split_ifs with hc hc' hc'
  · rw [show q - 1 + 3 = q + 2 by ring, show q - 1 + 4 = q + 3 by ring]
    norm_num
  · exact absurd (hleap.mp hc) hc'
  · exact absurd (hleap.mpr hc') hc
  · norm_num

/-- Evaluation of `Period` for an in-range period index. -/
theorem Period_char (y p : Int) (h : 2006 ≤ y) (h1 : 1 ≤ p) (h2 : p ≤ 12) :
    Period y p = some
      (startDays (y - 2006).toNat * GoTime.nsPerDay +
        pstartOff (startDays ((y - 2006).toNat + 1) - startDays (y - 2006).toNat) p * Day,
       startDays (y - 2006).toNat * GoTime.nsPerDay +
        pendOff (startDays ((y - 2006).toNat + 1) - startDays (y - 2006).toNat) p * Day - 1) := by
  have hns : GoTime.nsPerDay = 86400000000000 := by norm_num [GoTime.nsPerDay, GoTime.Hour]
  rw [Period, Year_char y h, Option.map_some']
  have hp0 : ¬(p < 1) := by omega
  have hp1 : ¬(12 < p) := by omega
  simp only [hp0, if_false, hp1]
  have hleap : (364 * Day < startDays ((y - 2006).toNat + 1) * GoTime.nsPerDay - 1 -
      startDays (y - 2006).toNat * GoTime.nsPerDay) ↔
      364 < startDays ((y - 2006).toNat + 1) - startDays (y - 2006).toNat := by
    rw [Day_eq_nsPerDay]
    constructor
    · intro hx
      nlinarith [hns]
    · intro hx
      nlinarith [hns]
  rw [goDiv_nonneg_eq _ _ (by omega : (0:Int) ≤ p - 1 + 2),
    goDiv_nonneg_eq _ _ (by omega : (0:Int) ≤ p - 1 + 3),
    goDiv_nonneg_eq _ _ (by omega : (0:Int) ≤ p - 1 + 9),
    goDiv_nonneg_eq _ _ (by omega : (0:Int) ≤ p - 1 + 10)]
  rw [pstartOff, pendOff]
  split_ifs with hc hc' hc'
  · rw [show p - 1 + 2 = p + 1 by ring, show p - 1 + 3 = p + 2 by ring,
      show p - 1 + 9 = p + 8 by ring, show p - 1 + 10 = p + 9 by ring]
    norm_num
  · exact absurd (hleap.mp hc) hc'
  · exact absurd (hleap.mpr hc') hc
  · rw [show p - 1 + 2 = p + 1 by ring, show p - 1 + 3 = p + 2 by ring]
    norm_num

theorem day_at_midnight (x : Int) :
    GoTime.day (x * GoTime.nsPerDay) = (GoTime.civilFromDays x).2.2 := by
  rw [GoTime.day, mul_nsPerDay_div]

/-- Function `Quarter` clamps its index: the two guard tests compute exactly
`min (max i 1) 4`. -/
theorem Quarter_clamp (y i : Int) : Quarter y i = Quarter y (min (max i 1) 4) := by
  rw [Quarter, Quarter]
  have hq : (if 4 < (if i < 1 then 1 else i) then 4 else (if i < 1 then 1 else i)) =
      (if 4 < (if min (max i 1) 4 < 1 then 1 else min (max i 1) 4) then 4
        else (if min (max i 1) 4 < 1 then 1 else min (max i 1) 4)) := by
    split_ifs <;> omega
  simp only [hq]

/-- Function `Period` clamps its index: the two guard tests compute exactly
`min (max i 1) 12`. -/
theorem Period_clamp (y i : Int) : Period y i = Period y (min (max i 1) 12) := by
  rw [Period, Period]
  have hp : (if 12 < (if i < 1 then 1 else i) then 12 else (if i < 1 then 1 else i)) =
      (if 12 < (if min (max i 1) 12 < 1 then 1 else min (max i 1) 12) then 12
        else (if min (max i 1) 12 < 1 then 1 else min (max i 1) 12)) := by
    split_ifs <;> omega
  simp only [hp]

theorem qlen_one (L : Int) :
    qendOff L 1 - qstartOff L 1 = if 364 < L then 98 else 91 := by
  rw [qendOff, qstartOff]
  split_ifs <;> norm_num

theorem qlen_rest (L q : Int) (h1 : 2 ≤ q) (h2 : q ≤ 4) :
    qendOff L q - qstartOff L q = 91 := by
  rw [qendOff, qstartOff]
  split_ifs <;> omega

theorem plen (L p : Int) (h1 : 1 ≤ p) (h2 : p ≤ 12) :
    pendOff L p - pstartOff L p =
      (if p % 3 = 1 then 35 else 28) + (if 364 < L ∧ p = 3 then 7 else 0) := by
  rw [pendOff, pstartOff]
  split_ifs <;> omega

theorem qadj (L q : Int) : qendOff L q = qstartOff L (q + 1) := by
  rw [qendOff, qstartOff]
  split_ifs <;> omega

theorem padj (L p : Int) : pendOff L p = pstartOff L (p + 1) := by
  rw [pendOff, pstartOff]
  split_ifs <;> omega

theorem qstart_one (L : Int) : qstartOff L 1 = 0 := by
  rw [qstartOff]
  split_ifs <;> norm_num

theorem qend_four (L : Int) (h : L = 364 ∨ L = 371) : qendOff L 4 = L := by
  rw [qendOff]
  split_ifs <;> omega

theorem pq_start (L q : Int) :
    pstartOff L (3 * q - 2) = qstartOff L q := by
  rw [pstartOff, qstartOff]
  split_ifs <;> omega

theorem pq_end (L q : Int) :
    pendOff L (3 * q) = qendOff L q := by
  rw [pendOff, qendOff]
  split_ifs <;> omega

theorem qsum (L : Int) (h : L = 364 ∨ L = 371) :
    (qendOff L 1 - qstartOff L 1) + (qendOff L 2 - qstartOff L 2) +
      (qendOff L 3 - qstartOff L 3) + (qendOff L 4 - qstartOff L 4) = L := by
  rw [qendOff, qendOff, qendOff, qendOff, qstartOff, qstartOff, qstartOff, qstartOff]
  split_ifs <;> omega

theorem psum (L q : Int) :
    (pendOff L (3 * q - 2) - pstartOff L (3 * q - 2)) +
      (pendOff L (3 * q - 1) - pstartOff L (3 * q - 1)) +
      (pendOff L (3 * q) - pstartOff L (3 * q)) =
    qendOff L q - qstartOff L q := by
  rw [pendOff, pendOff, pendOff, pstartOff, pstartOff, pstartOff, qendOff, qstartOff]
  split_ifs <;> omega

theorem startDays_len (n : Nat) :
    startDays (n + 1) - startDays n = 364 ∨ startDays (n + 1) - startDays n = 371 := by
  rcases startDays_succ n with h | h <;> omega

/-- Quarter length for `y ≥ 2006`. -/
theorem quarter_len (y q : Int) (h : 2006 ≤ y) (h1 : 1 ≤ q) (h2 : q ≤ 4) :
    spanLen (Quarter y q) = some
      ((qendOff (startDays ((y - 2006).toNat + 1) - startDays (y - 2006).toNat) q -
        qstartOff (startDays ((y - 2006).toNat + 1) - startDays (y - 2006).toNat) q) *
        Day) := by
  rw [Quarter_char y q h h1 h2, spanLen, Option.map_some']
  congr 1
  ring

/-- Period length for `y ≥ 2006`. -/
theorem period_len (y p : Int) (h : 2006 ≤ y) (h1 : 1 ≤ p) (h2 : p ≤ 12) :
    spanLen (Period y p) = some
      ((pendOff (startDays ((y - 2006).toNat + 1) - startDays (y - 2006).toNat) p -
        pstartOff (startDays ((y - 2006).toNat + 1) - startDays (y - 2006).toNat) p) *
        Day) := by
  rw [Period_char y p h h1 h2, spanLen, Option.map_some']
  congr 1
  ring

/-- Year length for `y ≥ 2006`. -/
theorem year_len (y : Int) (h : 2006 ≤ y) :
    spanLen (Year y) = some
      ((startDays ((y - 2006).toNat + 1) - startDays (y - 2006).toNat) * Day) := by
  rw [Year_char y h, spanLen, Option.map_some']
  congr 1
  rw [Day_eq_nsPerDay]
  ring

end fiscal

/-- Claim C5: for `y ≥ 2006` the following are equivalent: the fiscal year is
371 days long; `Quarter y 1` is 98 days long; `Period y 3` is 35 days long
(instead of the nominal 28).  In a 371-day year quarters 2..4 are still 91
days, and in a non-leap year every quarter is 91 days and the period lengths
follow the 35/28/28 pattern in each quarter. -/
theorem C5_leap_week_placement (y : Int) (h : 2006 ≤ y) :
    ((fiscal.spanLen (fiscal.Year y) = some (371 * fiscal.Day)) ↔
      (fiscal.spanLen (fiscal.Quarter y 1) = some (98 * fiscal.Day))) ∧
    ((fiscal.spanLen (fiscal.Year y) = some (371 * fiscal.Day)) ↔
      (fiscal.spanLen (fiscal.Period y 3) = some (35 * fiscal.Day))) ∧
    (fiscal.spanLen (fiscal.Year y) = some (371 * fiscal.Day) →
      ∀ q : Int, 2 ≤ q → q ≤ 4 →
        fiscal.spanLen (fiscal.Quarter y q) = some (91 * fiscal.Day)) ∧
    (fiscal.spanLen (fiscal.Year y) ≠ some (371 * fiscal.Day) →
      (∀ q : Int, 1 ≤ q → q ≤ 4 →
        fiscal.spanLen (fiscal.Quarter y q) = some (91 * fiscal.Day)) ∧
      (∀ p : Int, 1 ≤ p → p ≤ 12 →
        fiscal.spanLen (fiscal.Period y p) =
          some ((if p % 3 = 1 then 35 else 28) * fiscal.Day))) := by
  have hDay : fiscal.Day = 86400000000000 := by norm_num [fiscal.Day, GoTime.Hour]
  have hLval := fiscal.startDays_len (y - 2006).toNat
  have hY := fiscal.year_len y h
  rcases hLval with hL | hL <;> rw [hL] at hY
  · -- 364-day year
    have hY371 : ¬(fiscal.spanLen (fiscal.Year y) = some (371 * fiscal.Day)) := by
      rw [hY]
      simp only [Option.some.injEq]
      omega
    refine ⟨?_, ?_, ?_, ?_⟩
    · constructor
      · intro hx
        exact absurd hx hY371
      · intro hx
        have := fiscal.quarter_len y 1 h (by norm_num) (by norm_num)
        rw [hL, fiscal.qlen_one] at this
        rw [this] at hx
        simp only [Option.some.injEq] at hx
        norm_num at hx
        omega
    · constructor
      · intro hx
        exact absurd hx hY371
      · intro hx
        have := fiscal.period_len y 3 h (by norm_num) (by norm_num)
        rw [hL, fiscal.plen 364 3 (by norm_num) (by norm_num)] at this
        rw [this] at hx
        simp only [Option.some.injEq] at hx
        norm_num at hx
        omega
    · intro hx
      exact absurd hx hY371
    · intro _
      constructor
      · intro q h1 h2
        have := fiscal.quarter_len y q h h1 h2
        rw [hL] at this
        rcases eq_or_lt_of_le h1 with h1' | h1'
        · rw [this, ← h1', fiscal.qlen_one]
          norm_num
        · rw [this, fiscal.qlen_rest 364 q (by omega) h2]
      · intro p h1 h2
        have := fiscal.period_len y p h h1 h2
        rw [hL, fiscal.plen 364 p h1 h2] at this
        rw [this]
        have hz : (if 364 < (364:Int) ∧ p = 3 then (7:Int) else 0) = 0 := by norm_num
        rw [hz, add_zero]
  · -- 371-day year
    have hY371 : fiscal.spanLen (fiscal.Year y) = some (371 * fiscal.Day) := by
      rw [hY]
    refine ⟨?_, ?_, ?_, ?_⟩
    · constructor
      · intro _
        have := fiscal.quarter_len y 1 h (by norm_num) (by norm_num)
        rw [hL, fiscal.qlen_one] at this
        rw [this]
        norm_num
      · intro _
        exact hY371
    · constructor
      · intro _
        have := fiscal.period_len y 3 h (by norm_num) (by norm_num)
        rw [hL, fiscal.plen 371 3 (by norm_num) (by norm_num)] at this
        rw [this]
        norm_num
      · intro _
        exact hY371
    · intro _ q h1 h2
      have := fiscal.quarter_len y q h (by omega) h2
      rw [hL, fiscal.qlen_rest 371 q h1 h2] at this
      rw [this]
    · intro hx
      exact absurd hY371 hx

/-- Claim C3: for every fiscal year `y ≥ 2006`, `Year y` and `Year (y+1)`
both succeed and `Year(y).end + 1ns = Year(y+1).start`: consecutive fiscal
years are contiguous, with no gap and no overlap. -/
theorem C3_year_contiguity (y : Int) (h : 2006 ≤ y) :
    ∃ s e s2 e2, fiscal.Year y = some (s, e) ∧ fiscal.Year (y + 1) = some (s2, e2) ∧
      e + 1 = s2 := by
  have h2 : (y + 1 - 2006).toNat = (y - 2006).toNat + 1 := by omega
  refine ⟨fiscal.startDays (y - 2006).toNat * GoTime.nsPerDay,
    fiscal.startDays ((y - 2006).toNat + 1) * GoTime.nsPerDay - 1,
    fiscal.startDays ((y - 2006).toNat + 1) * GoTime.nsPerDay,
    fiscal.startDays ((y - 2006).toNat + 2) * GoTime.nsPerDay - 1,
    fiscal.Year_char y h, ?_, by ring⟩
  rw [fiscal.Year_char (y + 1) (by omega), h2]

/-- Witness for C3 at the anchor year. -/
theorem C3_year_contiguity_witness :
    ∃ s e s2 e2, fiscal.Year 2006 = some (s, e) ∧ fiscal.Year (2006 + 1) = some (s2, e2) ∧
      e + 1 = s2 :=
  C3_year_contiguity 2006 (by norm_num)

/-- Claim C4: every fiscal year `y ≥ 2006` is exactly 364 or 371 days long,
and it is 371 days long iff the instant 364 days after its start falls on a
calendar month-day earlier than the 25th. -/
theorem C4_year_length (y : Int) (h : 2006 ≤ y) :
    ∃ s e, fiscal.Year y = some (s, e) ∧
      (e + 1 - s = 364 * fiscal.Day ∨ e + 1 - s = 371 * fiscal.Day) ∧
      (e + 1 - s = 371 * fiscal.Day ↔ GoTime.day (s + 364 * fiscal.Day) < 25) := by
  have hns : GoTime.nsPerDay = 86400000000000 := by norm_num [GoTime.nsPerDay, GoTime.Hour]
  refine ⟨fiscal.startDays (y - 2006).toNat * GoTime.nsPerDay,
    fiscal.startDays ((y - 2006).toNat + 1) * GoTime.nsPerDay - 1,
    fiscal.Year_char y h, ?_, ?_⟩
  · rcases fiscal.startDays_succ (y - 2006).toNat with h364 | h371
    · left
      rw [h364, fiscal.Day_eq_nsPerDay]
      ring
    · right
      rw [h371, fiscal.Day_eq_nsPerDay]
      ring
  · have hrw : fiscal.startDays (y - 2006).toNat * GoTime.nsPerDay + 364 * fiscal.Day =
        (fiscal.startDays (y - 2006).toNat + 364) * GoTime.nsPerDay := by
      rw [fiscal.Day_eq_nsPerDay]
      ring
    rw [hrw, fiscal.day_at_midnight]
    rw [← fiscal.startDays_succ_iff, fiscal.Day_eq_nsPerDay, hns]
    constructor
    · intro hx
      omega
    · intro hx
      omega

/-- Witness for C4 at the anchor year. -/
theorem C4_year_length_witness :
    ∃ s e, fiscal.Year 2006 = some (s, e) ∧
      (e + 1 - s = 364 * fiscal.Day ∨ e + 1 - s = 371 * fiscal.Day) ∧
      (e + 1 - s = 371 * fiscal.Day ↔ GoTime.day (s + 364 * fiscal.Day) < 25) :=
  C4_year_length 2006 (by norm_num)

/-- Claim C6: for `y ≥ 2006` the four quarters partition the fiscal year
(first quarter starts at the year start, fourth ends at the year end,
consecutive quarters are adjacent to the nanosecond, and the four lengths sum
to the year length), and each quarter's three periods partition the quarter,
with all twelve periods adjacent to the nanosecond. -/
theorem C6_tiling (y : Int) (h : 2006 ≤ y) :
    (∃ s e s1 e1 s2 e2 s3 e3 s4 e4,
      fiscal.Year y = some (s, e) ∧
      fiscal.Quarter y 1 = some (s1, e1) ∧ fiscal.Quarter y 2 = some (s2, e2) ∧
      fiscal.Quarter y 3 = some (s3, e3) ∧ fiscal.Quarter y 4 = some (s4, e4) ∧
      s1 = s ∧ e4 = e ∧ e1 + 1 = s2 ∧ e2 + 1 = s3 ∧ e3 + 1 = s4 ∧
      (e1 + 1 - s1) + (e2 + 1 - s2) + (e3 + 1 - s3) + (e4 + 1 - s4) = e + 1 - s) ∧
    (∀ q : Int, 1 ≤ q → q ≤ 4 →
      ∃ sq eq p1s p1e p2s p2e p3s p3e,
        fiscal.Quarter y q = some (sq, eq) ∧
        fiscal.Period y (3 * q - 2) = some (p1s, p1e) ∧
        fiscal.Period y (3 * q - 1) = some (p2s, p2e) ∧
        fiscal.Period y (3 * q) = some (p3s, p3e) ∧
        p1s = sq ∧ p3e = eq ∧ p1e + 1 = p2s ∧ p2e + 1 = p3s ∧
        (p1e + 1 - p1s) + (p2e + 1 - p2s) + (p3e + 1 - p3s) = eq + 1 - sq) ∧
    (∀ p : Int, 1 ≤ p → p ≤ 11 →
      ∃ ps pe ps' pe', fiscal.Period y p = some (ps, pe) ∧
        fiscal.Period y (p + 1) = some (ps', pe') ∧ pe + 1 = ps') := by
  have hDay : fiscal.Day = 86400000000000 := by norm_num [fiscal.Day, GoTime.Hour]
  have hns : GoTime.nsPerDay = 86400000000000 := by norm_num [GoTime.nsPerDay, GoTime.Hour]
  have hLval := fiscal.startDays_len (y - 2006).toNat
  refine ⟨?_, ?_, ?_⟩
  · refine ⟨_, _, _, _, _, _, _, _, _, _, fiscal.Year_char y h,
      fiscal.Quarter_char y 1 h (by norm_num) (by norm_num),
      fiscal.Quarter_char y 2 h (by norm_num) (by norm_num),
      fiscal.Quarter_char y 3 h (by norm_num) (by norm_num),
      fiscal.Quarter_char y 4 h (by norm_num) (by norm_num),
      ?_, ?_, ?_, ?_, ?_, ?_⟩
    · rw [fiscal.qstart_one]
      ring
    · rw [fiscal.qend_four _ hLval, fiscal.Day_eq_nsPerDay]
      ring
    · rw [fiscal.qadj]
      norm_num
    · rw [fiscal.qadj]
      norm_num
    · rw [fiscal.qadj]
      norm_num
    · have hsum := fiscal.qsum (fiscal.startDays ((y - 2006).toNat + 1) - fiscal.startDays (y - 2006).toNat) hLval
      rw [fiscal.Day_eq_nsPerDay]
      linear_combination GoTime.nsPerDay * hsum
  · intro q h1 h2
    refine ⟨_, _, _, _, _, _, _, _,
      fiscal.Quarter_char y q h h1 h2,
      fiscal.Period_char y (3 * q - 2) h (by omega) (by omega),
      fiscal.Period_char y (3 * q - 1) h (by omega) (by omega),
      fiscal.Period_char y (3 * q) h (by omega) (by omega),
      ?_, ?_, ?_, ?_, ?_⟩
    · rw [fiscal.pq_start]
    · rw [fiscal.pq_end]
    · rw [fiscal.padj, show (3 * q - 2 : Int) + 1 = 3 * q - 1 by ring]
      ring
    · rw [fiscal.padj, show (3 * q - 1 : Int) + 1 = 3 * q by ring]
      ring
    · have hsum := fiscal.psum (fiscal.startDays ((y - 2006).toNat + 1) - fiscal.startDays (y - 2006).toNat) q
      rw [fiscal.Day_eq_nsPerDay]
      linear_combination GoTime.nsPerDay * hsum
  · intro p h1 h2
    refine ⟨_, _, _, _,
      fiscal.Period_char y p h h1 (by omega),
      fiscal.Period_char y (p + 1) h (by omega) (by omega), ?_⟩
    rw [fiscal.padj]
    ring

/-- Witness for C6 at the anchor year. -/
theorem C6_tiling_witness :
    (∃ s e s1 e1 s2 e2 s3 e3 s4 e4,
      fiscal.Year 2006 = some (s, e) ∧
      fiscal.Quarter 2006 1 = some (s1, e1) ∧ fiscal.Quarter 2006 2 = some (s2, e2) ∧
      fiscal.Quarter 2006 3 = some (s3, e3) ∧ fiscal.Quarter 2006 4 = some (s4, e4) ∧
      s1 = s ∧ e4 = e ∧ e1 + 1 = s2 ∧ e2 + 1 = s3 ∧ e3 + 1 = s4 ∧
      (e1 + 1 - s1) + (e2 + 1 - s2) + (e3 + 1 - s3) + (e4 + 1 - s4) = e + 1 - s) ∧
    (∀ q : Int, 1 ≤ q → q ≤ 4 →
      ∃ sq eq p1s p1e p2s p2e p3s p3e,
        fiscal.Quarter 2006 q = some (sq, eq) ∧
        fiscal.Period 2006 (3 * q - 2) = some (p1s, p1e) ∧
        fiscal.Period 2006 (3 * q - 1) = some (p2s, p2e) ∧
        fiscal.Period 2006 (3 * q) = some (p3s, p3e) ∧
        p1s = sq ∧ p3e = eq ∧ p1e + 1 = p2s ∧ p2e + 1 = p3s ∧
        (p1e + 1 - p1s) + (p2e + 1 - p2s) + (p3e + 1 - p3s) = eq + 1 - sq) ∧
    (∀ p : Int, 1 ≤ p → p ≤ 11 →
      ∃ ps pe ps' pe', fiscal.Period 2006 p = some (ps, pe) ∧
        fiscal.Period 2006 (p + 1) = some (ps', pe') ∧ pe + 1 = ps') :=
  C6_tiling 2006 (by norm_num)

/-- Witness for C5 at the anchor year. -/
theorem C5_leap_week_placement_witness :
    ((fiscal.spanLen (fiscal.Year 2006) = some (371 * fiscal.Day)) ↔
      (fiscal.spanLen (fiscal.Quarter 2006 1) = some (98 * fiscal.Day))) ∧
    ((fiscal.spanLen (fiscal.Year 2006) = some (371 * fiscal.Day)) ↔
      (fiscal.spanLen (fiscal.Period 2006 3) = some (35 * fiscal.Day))) ∧
    (fiscal.spanLen (fiscal.Year 2006) = some (371 * fiscal.Day) →
      ∀ q : Int, 2 ≤ q → q ≤ 4 →
        fiscal.spanLen (fiscal.Quarter 2006 q) = some (91 * fiscal.Day)) ∧
    (fiscal.spanLen (fiscal.Year 2006) ≠ some (371 * fiscal.Day) →
      (∀ q : Int, 1 ≤ q → q ≤ 4 →
        fiscal.spanLen (fiscal.Quarter 2006 q) = some (91 * fiscal.Day)) ∧
      (∀ p : Int, 1 ≤ p → p ≤ 12 →
        fiscal.spanLen (fiscal.Period 2006 p) =
          some ((if p % 3 = 1 then 35 else 28) * fiscal.Day))) :=
  C5_leap_week_placement 2006 (by norm_num)

/-- Claim C7: quarter and period indices are silently clamped to the nearest
valid bound (`[1,4]` resp. `[1,12]`), and for `y ≥ 2006` the resolvers always
return a result (no error is ever raised). -/
theorem C7_index_clamping (y i : Int) (h : 2006 ≤ y) :
    fiscal.Quarter y i = fiscal.Quarter y (min (max i 1) 4) ∧
    (fiscal.Quarter y i).isSome = true ∧
    fiscal.Period y i = fiscal.Period y (min (max i 1) 12) ∧
    (fiscal.Period y i).isSome = true := by
  refine ⟨fiscal.Quarter_clamp y i, ?_, fiscal.Period_clamp y i, ?_⟩
  · rw [fiscal.Quarter, fiscal.Year_char y h, Option.map_some', Option.isSome]
  · rw [fiscal.Period, fiscal.Year_char y h, Option.map_some', Option.isSome]

/-- Witness for C7 with an out-of-range index. -/
theorem C7_index_clamping_witness :
    fiscal.Quarter 2006 7 = fiscal.Quarter 2006 (min (max 7 1) 4) ∧
    (fiscal.Quarter 2006 7).isSome = true ∧
    fiscal.Period 2006 7 = fiscal.Period 2006 (min (max 7 1) 12) ∧
    (fiscal.Period 2006 7).isSome = true :=
  C7_index_clamping 2006 7 (by norm_num)

/-- Claim C8: concrete anchor-year values.  `Year 2006` is the 371-day year
starting at the anchor; `Quarter 2006 1` is 98 days; `Period 2006 1` is
35 days; `Period 2006 3` is 35 days long rather than the nominal 28. -/
theorem C8_anchor_year_concrete :
    fiscal.Year 2006 = some (fiscal.first, fiscal.first + 371 * fiscal.Day - 1) ∧
    fiscal.Quarter 2006 1 = some (fiscal.first, fiscal.first + 98 * fiscal.Day - 1) ∧
    fiscal.Period 2006 1 = some (fiscal.first, fiscal.first + 35 * fiscal.Day - 1) ∧
    fiscal.Period 2006 3 = some (fiscal.first + 63 * fiscal.Day,
      fiscal.first + 98 * fiscal.Day - 1) ∧
    fiscal.first + 98 * fiscal.Day - 1 + 1 - (fiscal.first + 63 * fiscal.Day) =
      35 * fiscal.Day := by
  decide

/-- Claim C9 counterexample: for the below-anchor input 2000 the loop in
`Year` exits favourably on its very first iteration (the claim asserts its
condition can never hold for such inputs, i.e. non-termination). -/
theorem C9_counterexample :
    fiscal.yearLoop 2000 1 fiscal.first =
      some (fiscal.first, fiscal.first + 371 * fiscal.Day - 1) ∧
    (fiscal.Year 2000).isSome = true := by
  decide

/-- Claim C9 (amended): `Year` terminates for every input year: for years at
or after the anchor because each iteration increases the candidate end's
calendar year by exactly one (`startDays (n+1)` has calendar year `2006 + n`),
and for years below the anchor on the first iteration. -/
theorem C9_year_termination :
    (∀ y : Int, (fiscal.Year y).isSome = true) ∧
    (∀ n : Nat, GoTime.year (fiscal.startDays (n + 1) * GoTime.nsPerDay) =
      2006 + (n : Int)) := by
  constructor
  · intro y
    rcases Int.lt_or_le y 2006 with hy | hy
    · rw [fiscal.Year_low y (by omega)]
      rfl
    · rw [fiscal.Year_char y hy]
      rfl
  · intro n
    rw [fiscal.year_at_midnight, fiscal.startDays_year]
    push_cast
    ring

/-- Claim C10: for every year number `y ≤ 2006` (including arbitrarily
negative ones), `Year y` exits on its first loop iteration, returns exactly
`Year 2006`'s boundaries `(anchor, anchor + 371 days - 1ns)`, and the exit
happens because the first candidate end's calendar year is 2006. -/
theorem C10_below_anchor (y : Int) (h : y ≤ 2006) :
    fiscal.Year y = fiscal.Year 2006 ∧
    fiscal.Year y = some (fiscal.first, fiscal.first + 371 * fiscal.Day - 1) ∧
    fiscal.yearLoop y 1 fiscal.first = fiscal.Year y ∧
    GoTime.year (fiscal.first + 371 * fiscal.Day) = 2006 := by
  have hs1 : fiscal.startDays 1 = fiscal.startDays 0 + 371 := by decide
  have hfirst : fiscal.first = fiscal.startDays 0 * GoTime.nsPerDay := rfl
  have hval : fiscal.startDays 1 * GoTime.nsPerDay =
      fiscal.first + 371 * fiscal.Day := by
    rw [hs1, hfirst, fiscal.Day_eq_nsPerDay]
    ring
  refine ⟨?_, ?_, ?_, ?_⟩
  · rw [fiscal.Year_low y h, fiscal.Year_low 2006 le_rfl]
  · rw [fiscal.Year_low y h, hval, hfirst]
  · have hstep := fiscal.yearLoop_step y 0 0
    rw [← hfirst] at hstep
    rw [hstep, if_pos (by push_cast; omega), fiscal.Year_low y h, hval, hfirst]
  · rw [← hval, fiscal.year_at_midnight, fiscal.startDays_year]
    norm_num

/-- Witness for C10 at a deep below-anchor year. -/
theorem C10_below_anchor_witness :
    fiscal.Year 1995 = fiscal.Year 2006 ∧
    fiscal.Year 1995 = some (fiscal.first, fiscal.first + 371 * fiscal.Day - 1) ∧
    fiscal.yearLoop 1995 1 fiscal.first = fiscal.Year 1995 ∧
    GoTime.year (fiscal.first + 371 * fiscal.Day) = 2006 :=
  C10_below_anchor 1995 (by norm_num)

namespace fiscal

/-- Resolution step shared by the three date classifiers: for an instant
inside fiscal year `y` whose calendar year is at least 2006, `Year` at the
calendar year of the instant yields a range whose end determines the fiscal
year label `y` and the true fiscal-year start. -/
theorem classifier_resolve (y t : Int) (hy : 2006 ≤ y) (hcy : 2006 ≤ GoTime.year t)
    (hlow : startDays (y - 2006).toNat * GoTime.nsPerDay ≤ t)
    (hhigh : t ≤ startDays ((y - 2006).toNat + 1) * GoTime.nsPerDay - 1) :
    ∃ s e, Year (GoTime.year t) = some (s, e) ∧
      (if e < t then GoTime.year t + 1 else GoTime.year t) = y ∧
      (if e < t then e + 1 else s) = startDays (y - 2006).toNat * GoTime.nsPerDay := by
  have hns : GoTime.nsPerDay = 86400000000000 := by norm_num [GoTime.nsPerDay, GoTime.Hour]
  have hWl := window_bounds _ _ (startDays_window (y - 2006).toNat)
  have hWh := window_bounds _ _ (startDays_window ((y - 2006).toNat + 1))
  rw [show (2005 : Int) + (((y - 2006).toNat : Nat) : Int) = y - 1 by omega] at hWl
  rw [show (2005 : Int) + ((((y - 2006).toNat + 1 : Nat)) : Int) = y by push_cast; omega] at hWh
  have hz1 : startDays (y - 2006).toNat ≤ t / GoTime.nsPerDay := by
    rw [hns] at hlow ⊢
    omega
  have hz2 : t / GoTime.nsPerDay ≤ startDays ((y - 2006).toNat + 1) - 1 := by
    rw [hns] at hhigh ⊢
    omega
  have hsepA := GoTime.daysFromCivil_sep (y - 1) 1
  have hsepA25 := GoTime.daysFromCivil_sep (y - 1) 25
  have hoctA := GoTime.daysFromCivil_oct (y - 1) 1
  have hsepB := GoTime.daysFromCivil_sep y 1
  have hoctB := GoTime.daysFromCivil_oct y 1
  have hjan0 : GoTime.daysFromCivil y 1 1 = GoTime.daysFromCivil (y - 1) 9 1 + 122 := by
    have h := GoTime.jan1_eq (y - 1)
    rw [show y - 1 + 1 = y by ring] at h
    exact h
  have hjan1 := GoTime.jan1_eq y
  rcases Int.lt_or_le (t / GoTime.nsPerDay) (GoTime.daysFromCivil y 1 1) with hsplit | hsplit
  · have hjanm : GoTime.daysFromCivil (y - 1) 1 1 = GoTime.daysFromCivil (y - 2) 9 1 + 122 := by
      have h := GoTime.jan1_eq (y - 2)
      rw [show y - 2 + 1 = y - 1 by ring] at h
      exact h
    have hdeltam : GoTime.daysFromCivil (y - 1) 9 1 = GoTime.daysFromCivil (y - 2) 9 1 + 365 ∨
        GoTime.daysFromCivil (y - 1) 9 1 = GoTime.daysFromCivil (y - 2) 9 1 + 366 := by
      have h := (GoTime.year_delta_iff (y - 2)).2
      rw [show y - 2 + 1 = y - 1 by ring] at h
      exact h
    have hcyv : GoTime.year t = y - 1 := by
      rw [GoTime.year]
      apply GoTime.year_of_days
      · omega
      · rw [show y - 1 + 1 = y by ring]
        exact hsplit
    have hYc := Year_char (y - 1) (by omega)
    rw [show (y - 1 - 2006).toNat = (y - 2006).toNat - 1 by omega,
      show (y - 2006).toNat - 1 + 1 = (y - 2006).toNat by omega] at hYc
    refine ⟨startDays ((y - 2006).toNat - 1) * GoTime.nsPerDay,
      startDays (y - 2006).toNat * GoTime.nsPerDay - 1, by rw [hcyv]; exact hYc, ?_, ?_⟩
    · rw [if_pos (by omega)]
      omega
    · rw [if_pos (by omega)]
      omega
  · have hcyv : GoTime.year t = y := by
      rw [GoTime.year]
      apply GoTime.year_of_days
      · exact hsplit
      · omega
    have hYc := Year_char y hy
    refine ⟨startDays (y - 2006).toNat * GoTime.nsPerDay,
      startDays ((y - 2006).toNat + 1) * GoTime.nsPerDay - 1, by rw [hcyv]; exact hYc, ?_, ?_⟩
    · rw [if_neg (by omega)]
      exact hcyv
    · rw [if_neg (by omega)]

/-- The `daysSinceStart` computation: rounding to the nearest hour and
truncating to days gives the true day index, except in the last half hour
of a day, where it gives the next day's index. -/
theorem daysSinceStart_cases (d : Int) (hd : 0 ≤ d) :
    (d % GoTime.nsPerDay < 84600 * 1000000000 ∧
      GoTime.goDiv (GoTime.durRound d GoTime.Hour / GoTime.Hour) 24 = d / GoTime.nsPerDay) ∨
    (84600 * 1000000000 ≤ d % GoTime.nsPerDay ∧
      GoTime.goDiv (GoTime.durRound d GoTime.Hour / GoTime.Hour) 24 = d / GoTime.nsPerDay + 1) := by
  have hHour : GoTime.Hour = 3600000000000 := by norm_num [GoTime.Hour]
  have hns : GoTime.nsPerDay = 86400000000000 := by norm_num [GoTime.nsPerDay, GoTime.Hour]
  simp only [GoTime.durRound, GoTime.goMod, GoTime.goDiv, hHour, hns]
  split_ifs <;> omega

theorem qstartOff_nonneg (L q : Int) (h1 : 1 ≤ q) : 0 ≤ qstartOff L q := by
  rw [qstartOff]
  split_ifs <;> omega

theorem pstartOff_nonneg (L p : Int) (h1 : 1 ≤ p) : 0 ≤ pstartOff L p := by
  rw [pstartOff]
  split_ifs <;> omega

theorem qmono (L i p : Int) (h : i < p) (_h1 : 1 ≤ i) : qendOff L i ≤ qstartOff L p := by
  rw [qendOff, qstartOff]
  split_ifs <;> omega

theorem pmono (L i p : Int) (h : i < p) (_h1 : 1 ≤ i) : pendOff L i ≤ pstartOff L p := by
  rw [pendOff, pstartOff]
  split_ifs <;> omega

theorem qendOff_le (L q : Int) (hL : L = 364 ∨ L = 371) (h2 : q ≤ 4) :
    qendOff L q ≤ L := by
  rw [qendOff]
  split_ifs <;> omega

theorem pendOff_le (L p : Int) (hL : L = 364 ∨ L = 371) (h2 : p ≤ 12) :
    pendOff L p ≤ L := by
  rw [pendOff]
  split_ifs <;> omega

/-- The quarter scan seed never overshoots the containing quarter, except in
the excluded half-hour window of a 98-day first quarter. -/
theorem quarter_seed (L q D ds : Int) (_hL : L = 364 ∨ L = 371) (h1 : 1 ≤ q) (h2 : q ≤ 4)
    (hD2 : D < qendOff L q) (hds : ds = D ∨ ds = D + 1) (h0 : 0 ≤ ds)
    (hx : ¬(364 < L ∧ q = 1 ∧ 98 ≤ ds)) :
    1 + ds / 98 ≤ q := by
  rw [qendOff] at hD2
  split_ifs at hD2 <;> omega

/-- The period scan seed never overshoots the containing period, except in
the excluded half-hour window of period 1. -/
theorem period_seed (L p D ds : Int) (_hL : L = 364 ∨ L = 371) (h1 : 1 ≤ p) (h2 : p ≤ 12)
    (hD2 : D < pendOff L p) (hds : ds = D ∨ ds = D + 1) (h0 : 0 ≤ ds)
    (hx : ¬(p = 1 ∧ 35 ≤ ds)) :
    1 + ds / 35 ≤ p := by
  rw [pendOff] at hD2
  split_ifs at hD2 <;> omega

/-- The forward scan reaches and returns the first containing quarter. -/
theorem quarterScan_reach (y t : Int) :
    ∀ (k : Nat) (j : Int) (fuel : Nat), k < fuel →
      (∀ i : Int, j ≤ i → i < j + (k : Int) →
        ∃ s e, Quarter y i = some (s, e) ∧ e < t) →
      (∃ s e, Quarter y (j + (k : Int)) = some (s, e) ∧ ¬t < s ∧ ¬e < t) →
      quarterScan y t fuel j = some (y, j + (k : Int)) := by
  intro k
  induction k with
  | zero =>
    intro j fuel hf hmiss hcont
    obtain ⟨f, rfl⟩ : ∃ f, fuel = f + 1 := ⟨fuel - 1, by omega⟩
    rw [show j + ((0 : Nat) : Int) = j by push_cast; ring] at hcont ⊢
    obtain ⟨s, e, hQ, hc1, hc2⟩ := hcont
    simp only [quarterScan, hQ]
    rw [if_pos ⟨hc1, hc2⟩]
  | succ k ih =>
    intro j fuel hf hmiss hcont
    obtain ⟨f, rfl⟩ : ∃ f, fuel = f + 1 := ⟨fuel - 1, by omega⟩
    obtain ⟨s, e, hQ, he⟩ := hmiss j le_rfl (by push_cast; omega)
    simp only [quarterScan, hQ]
    rw [if_neg (fun hcon => hcon.2 he)]
    have hcast : j + ((k + 1 : Nat) : Int) = (j + 1) + (k : Int) := by push_cast; ring
    rw [hcast] at hcont ⊢
    refine ih (j + 1) f (by omega) ?_ hcont
    intro i hi1 hi2
    exact hmiss i (by omega) (by push_cast at hi2 ⊢; omega)

/-- The forward scan reaches and returns the first containing period. -/
theorem periodScan_reach (y t : Int) :
    ∀ (k : Nat) (j : Int) (fuel : Nat), k < fuel →
      (∀ i : Int, j ≤ i → i < j + (k : Int) →
        ∃ s e, Period y i = some (s, e) ∧ e < t) →
      (∃ s e, Period y (j + (k : Int)) = some (s, e) ∧ ¬t < s ∧ ¬e < t) →
      periodScan y t fuel j = some (y, j + (k : Int)) := by
  intro k
  induction k with
  | zero =>
    intro j fuel hf hmiss hcont
    obtain ⟨f, rfl⟩ : ∃ f, fuel = f + 1 := ⟨fuel - 1, by omega⟩
    rw [show j + ((0 : Nat) : Int) = j by push_cast; ring] at hcont ⊢
    obtain ⟨s, e, hQ, hc1, hc2⟩ := hcont
    simp only [periodScan, hQ]
    rw [if_pos ⟨hc1, hc2⟩]
  | succ k ih =>
    intro j fuel hf hmiss hcont
    obtain ⟨f, rfl⟩ : ∃ f, fuel = f + 1 := ⟨fuel - 1, by omega⟩
    obtain ⟨s, e, hQ, he⟩ := hmiss j le_rfl (by push_cast; omega)
    simp only [periodScan, hQ]
    rw [if_neg (fun hcon => hcon.2 he)]
    have hcast : j + ((k + 1 : Nat) : Int) = (j + 1) + (k : Int) := by push_cast; ring
    rw [hcast] at hcont ⊢
    refine ih (j + 1) f (by omega) ?_ hcont
    intro i hi1 hi2
    exact hmiss i (by omega) (by push_cast at hi2 ⊢; omega)

/-- Unfolding of `QuarterForDate` once the year lookup is known. -/
theorem QuarterForDate_eq (fuel : Nat) (date s e : Int)
    (hY : Year (GoTime.year date) = some (s, e)) :
    QuarterForDate fuel date = quarterScan
      (if e < date then GoTime.year date + 1 else GoTime.year date) date fuel
      (1 + GoTime.goDiv (GoTime.goDiv (GoTime.durRound
        (date - (if e < date then e + 1 else s)) GoTime.Hour / GoTime.Hour) 24) 98) := by
  rw [QuarterForDate, hY, Option.some_bind]

/-- Unfolding of `PeriodForDate` once the year lookup is known. -/
theorem PeriodForDate_eq (fuel : Nat) (date s e : Int)
    (hY : Year (GoTime.year date) = some (s, e)) :
    PeriodForDate fuel date = periodScan
      (if e < date then GoTime.year date + 1 else GoTime.year date) date fuel
      (1 + GoTime.goDiv (GoTime.goDiv (GoTime.durRound
        (date - (if e < date then e + 1 else s)) GoTime.Hour / GoTime.Hour) 24) 35) := by
  rw [PeriodForDate, hY, Option.some_bind]

end fiscal

theorem Year_2005_eq : fiscal.Year 2005 = fiscal.Year 2006 := by
  rw [fiscal.Year_low 2005 (by norm_num), fiscal.Year_char 2006 le_rfl]
  norm_num

/-- The forward scan of `QuarterForDate` never returns once seeded past the
quarter containing `quarterOvershootDate`: every scanned quarter (clamped to
at most 4) starts after the date. -/
theorem quarterScan_overshoot_none : ∀ (fuel : Nat) (q : Int), 2 ≤ q →
    fiscal.quarterScan 2005 quarterOvershootDate fuel q = none := by
  have hDay : fiscal.Day = 86400000000000 := by norm_num [fiscal.Day, GoTime.Hour]
  have hns : GoTime.nsPerDay = 86400000000000 := by norm_num [GoTime.nsPerDay, GoTime.Hour]
  have hfirstval : fiscal.first = 13051 * GoTime.nsPerDay := by decide
  have hs0 : fiscal.startDays 0 = 13051 := by decide
  have hs1 : fiscal.startDays 1 = 13422 := by decide
  intro fuel
  induction fuel with
  | zero =>
    intro q hq
    rfl
  | succ fuel ih =>
    intro q hq
    have hQ : fiscal.Quarter 2005 q = fiscal.Quarter 2006 (min (max q 1) 4) := by
      rw [fiscal.Quarter_clamp 2005 q, fiscal.Quarter, Year_2005_eq, ← fiscal.Quarter]
    have hchar := fiscal.Quarter_char 2006 (min (max q 1) 4) le_rfl (by omega) (by omega)
    rw [show ((2006:Int) - 2006).toNat = 0 by norm_num] at hchar
    rw [show (0:Nat) + 1 = 1 from rfl, hs0, hs1] at hchar
    rw [show (13422:Int) - 13051 = 371 by norm_num] at hchar
    rw [hchar] at hQ
    have hdate : quarterOvershootDate <
        13051 * GoTime.nsPerDay + fiscal.qstartOff 371 (min (max q 1) 4) * fiscal.Day := by
      rw [quarterOvershootDate, fiscal.qstartOff, if_pos (by norm_num : (364:Int) < 371),
        hfirstval, hDay, hns]
      omega
    simp only [fiscal.quarterScan, hQ]
    rw [if_neg (fun hcon => hcon.1 hdate)]
    exact ih (q + 1) (by omega)

/-- The forward scan of `PeriodForDate` never returns once seeded past the
period containing `periodOvershootDate`. -/
theorem periodScan_overshoot_none : ∀ (fuel : Nat) (p : Int), 2 ≤ p →
    fiscal.periodScan 2005 periodOvershootDate fuel p = none := by
  have hDay : fiscal.Day = 86400000000000 := by norm_num [fiscal.Day, GoTime.Hour]
  have hns : GoTime.nsPerDay = 86400000000000 := by norm_num [GoTime.nsPerDay, GoTime.Hour]
  have hfirstval : fiscal.first = 13051 * GoTime.nsPerDay := by decide
  have hs0 : fiscal.startDays 0 = 13051 := by decide
  have hs1 : fiscal.startDays 1 = 13422 := by decide
  intro fuel
  induction fuel with
  | zero =>
    intro p hp
    rfl
  | succ fuel ih =>
    intro p hp
    have hP : fiscal.Period 2005 p = fiscal.Period 2006 (min (max p 1) 12) := by
      rw [fiscal.Period_clamp 2005 p, fiscal.Period, Year_2005_eq, ← fiscal.Period]
    have hchar := fiscal.Period_char 2006 (min (max p 1) 12) le_rfl (by omega) (by omega)
    rw [show ((2006:Int) - 2006).toNat = 0 by norm_num] at hchar
    rw [show (0:Nat) + 1 = 1 from rfl, hs0, hs1] at hchar
    rw [show (13422:Int) - 13051 = 371 by norm_num] at hchar
    rw [hchar] at hP
    have hdate : periodOvershootDate <
        13051 * GoTime.nsPerDay + fiscal.pstartOff 371 (min (max p 1) 12) * fiscal.Day := by
      rw [periodOvershootDate, fiscal.pstartOff, if_pos (by norm_num : (364:Int) < 371),
        hfirstval, hDay, hns]
      omega
    simp only [fiscal.periodScan, hP]
    rw [if_neg (fun hcon => hcon.1 hdate)]
    exact ih (p + 1) (by omega)

/-- Claim C2 (refuting theorem): the seed of the forward scan overshoots.
`quarterOvershootDate` lies inside `Quarter 2006 1` and
`periodOvershootDate` inside `Period 2006 1`, yet `QuarterForDate` resp.
`PeriodForDate` never return on them: rounding the 23:30 time-of-day to the
nearest hour pushes `daysSinceStart` to 98 resp. 35, seeding the scan at
index 2, past the containing index 1; the forward-only scan, clamped at the
maximal index, then never finds a containing range for any amount of fuel
(the Go loop runs forever). -/
theorem C2_seed_overshoot_nontermination :
    (∃ s e, fiscal.Quarter 2006 1 = some (s, e) ∧
      s ≤ quarterOvershootDate ∧ quarterOvershootDate ≤ e) ∧
    (∀ fuel : Nat, fiscal.QuarterForDate fuel quarterOvershootDate =
      fiscal.quarterScan 2005 quarterOvershootDate fuel 2) ∧
    (∀ fuel : Nat, fiscal.QuarterForDate fuel quarterOvershootDate = none) ∧
    (∃ s e, fiscal.Period 2006 1 = some (s, e) ∧
      s ≤ periodOvershootDate ∧ periodOvershootDate ≤ e) ∧
    (∀ fuel : Nat, fiscal.PeriodForDate fuel periodOvershootDate =
      fiscal.periodScan 2005 periodOvershootDate fuel 2) ∧
    (∀ fuel : Nat, fiscal.PeriodForDate fuel periodOvershootDate = none) := by
  refine ⟨⟨fiscal.first, fiscal.first + 98 * fiscal.Day - 1, by decide, by decide, by decide⟩,
    fun fuel => rfl, ?_,
    ⟨fiscal.first, fiscal.first + 35 * fiscal.Day - 1, by decide, by decide, by decide⟩,
    fun fuel => rfl, ?_⟩
  · intro fuel
    exact (rfl : fiscal.QuarterForDate fuel quarterOvershootDate =
      fiscal.quarterScan 2005 quarterOvershootDate fuel 2).trans
      (quarterScan_overshoot_none fuel 2 le_rfl)
  · intro fuel
    exact (rfl : fiscal.PeriodForDate fuel periodOvershootDate =
      fiscal.periodScan 2005 periodOvershootDate fuel 2).trans
      (periodScan_overshoot_none fuel 2 le_rfl)

/-- Claim C1 (amended): classifier/resolver agreement for `y ≥ 2006`,
restricted to instants whose calendar year is at least 2006 (this excludes
the calendar-2005 portion of fiscal 2006, where the classifiers label the
result 2005), and excluding the half-hour windows in which the
rounded-to-hour day count makes the scan seed overshoot (the last half hour
of day 98 of a 98-day first quarter, and of day 35 of period 1), where the
scans never return:

* `YearForDate` returns `y` for instants strictly inside `Year y`;
* `QuarterForDate` returns `(y, q)` for instants in `Quarter y q`;
* `PeriodForDate` returns `(y, p)` for instants in `Period y p`. -/
theorem C1_classifier_resolver_agreement (y t : Int) (hy : 2006 ≤ y)
    (hcy : 2006 ≤ GoTime.year t) :
    (∀ s e, fiscal.Year y = some (s, e) → s < t → t < e →
      fiscal.YearForDate t = some y) ∧
    (∀ q s e, 1 ≤ q → q ≤ 4 → fiscal.Quarter y q = some (s, e) → s ≤ t → t ≤ e →
      ¬(e + 1 - s = 98 * fiscal.Day ∧ s + 97 * fiscal.Day + 84600 * 1000000000 ≤ t) →
      ∀ fuel : Nat, 4 ≤ fuel → fiscal.QuarterForDate fuel t = some (y, q)) ∧
    (∀ p s e, 1 ≤ p → p ≤ 12 → fiscal.Period y p = some (s, e) → s ≤ t → t ≤ e →
      ¬(p = 1 ∧ s + 34 * fiscal.Day + 84600 * 1000000000 ≤ t) →
      ∀ fuel : Nat, 12 ≤ fuel → fiscal.PeriodForDate fuel t = some (y, p)) := by
  have hDay : fiscal.Day = 86400000000000 := by norm_num [fiscal.Day, GoTime.Hour]
  have hns : GoTime.nsPerDay = 86400000000000 := by norm_num [GoTime.nsPerDay, GoTime.Hour]
  have hL := fiscal.startDays_len (y - 2006).toNat
  refine ⟨?_, ?_, ?_⟩
  · intro s e hY h1 h2
    rw [fiscal.Year_char y hy] at hY
    simp only [Option.some.injEq, Prod.mk.injEq] at hY
    obtain ⟨hs, he⟩ := hY
    subst hs
    subst he
    obtain ⟨s', e', hYcy, hlabel, hstart⟩ := fiscal.classifier_resolve y t hy hcy
      (le_of_lt h1) (by omega)
    simp only [fiscal.YearForDate, hYcy, Option.map_some']
    rw [hlabel]
  · intro q s e hq1 hq2 hQ h1 h2 hnw fuel hfuel
    rw [fiscal.Quarter_char y q hy hq1 hq2] at hQ
    simp only [Option.some.injEq, Prod.mk.injEq] at hQ
    obtain ⟨hs, he⟩ := hQ
    subst hs
    subst he
    rw [hDay, hns] at h1 h2 hnw
    have hqs0 := fiscal.qstartOff_nonneg
      (fiscal.startDays ((y - 2006).toNat + 1) - fiscal.startDays (y - 2006).toNat) q hq1
    have hqe := fiscal.qendOff_le
      (fiscal.startDays ((y - 2006).toNat + 1) - fiscal.startDays (y - 2006).toNat) q hL hq2
    have hlow : fiscal.startDays (y - 2006).toNat * GoTime.nsPerDay ≤ t := by
      rw [hns]
      omega
    have hhigh : t ≤ fiscal.startDays ((y - 2006).toNat + 1) * GoTime.nsPerDay - 1 := by
      rw [hns]
      omega
    obtain ⟨s', e', hYcy, hlabel, hstart⟩ := fiscal.classifier_resolve y t hy hcy hlow hhigh
    rw [fiscal.QuarterForDate_eq fuel t s' e' hYcy, hlabel, hstart]
    have hd0 : 0 ≤ t - fiscal.startDays (y - 2006).toNat * GoTime.nsPerDay := by
      rw [hns]
      omega
    have hdsc := fiscal.daysSinceStart_cases
      (t - fiscal.startDays (y - 2006).toNat * GoTime.nsPerDay) hd0
    have hds0 : 0 ≤ GoTime.goDiv (GoTime.durRound
        (t - fiscal.startDays (y - 2006).toNat * GoTime.nsPerDay) GoTime.Hour /
          GoTime.Hour) 24 := by
      rcases hdsc with ⟨_, hh⟩ | ⟨_, hh⟩ <;> rw [hh] <;> rw [hns] at hd0 ⊢ <;> omega
    rw [show (1 : Int) + GoTime.goDiv (GoTime.goDiv (GoTime.durRound
      (t - fiscal.startDays (y - 2006).toNat * GoTime.nsPerDay) GoTime.Hour /
        GoTime.Hour) 24) 98 = 1 + GoTime.goDiv (GoTime.durRound
      (t - fiscal.startDays (y - 2006).toNat * GoTime.nsPerDay) GoTime.Hour /
        GoTime.Hour) 24 / 98 from by rw [fiscal.goDiv_nonneg_eq _ _ hds0]]
    have hseed : 1 + GoTime.goDiv (GoTime.durRound
        (t - fiscal.startDays (y - 2006).toNat * GoTime.nsPerDay) GoTime.Hour /
          GoTime.Hour) 24 / 98 ≤ q := by
      apply fiscal.quarter_seed
        (fiscal.startDays ((y - 2006).toNat + 1) - fiscal.startDays (y - 2006).toNat) q
        ((t - fiscal.startDays (y - 2006).toNat * GoTime.nsPerDay) / GoTime.nsPerDay)
        _ hL hq1 hq2
      · rw [hns]
        omega
      · rcases hdsc with ⟨_, hh⟩ | ⟨_, hh⟩
        · left
          rw [hh, hns]
        · right
          rw [hh, hns]
      · exact hds0
      · rintro ⟨hleap, hq1', hds98⟩
        subst hq1'
        have hqe1 : fiscal.qendOff
            (fiscal.startDays ((y - 2006).toNat + 1) - fiscal.startDays (y - 2006).toNat) 1
            = 98 := by
          rw [fiscal.qendOff, if_pos hleap]
          norm_num
        have hqs1 : fiscal.qstartOff
            (fiscal.startDays ((y - 2006).toNat + 1) - fiscal.startDays (y - 2006).toNat) 1
            = 0 := fiscal.qstart_one _
        apply hnw
        rcases hdsc with ⟨hc, hh⟩ | ⟨hc, hh⟩
        · rw [hh] at hds98
          rw [hns] at hds98 hc hd0
          exact ⟨by omega, by omega⟩
        · rw [hh] at hds98
          rw [hns] at hds98 hc hd0
          exact ⟨by omega, by omega⟩
    have hcast : (1 + GoTime.goDiv (GoTime.durRound
        (t - fiscal.startDays (y - 2006).toNat * GoTime.nsPerDay) GoTime.Hour /
          GoTime.Hour) 24 / 98) +
        (((q - (1 + GoTime.goDiv (GoTime.durRound
          (t - fiscal.startDays (y - 2006).toNat * GoTime.nsPerDay) GoTime.Hour /
            GoTime.Hour) 24 / 98)).toNat : Nat) : Int) = q := by
      omega
    rw [show (some (y, q) : Option (Int × Int)) = some (y, (1 + GoTime.goDiv (GoTime.durRound
      (t - fiscal.startDays (y - 2006).toNat * GoTime.nsPerDay) GoTime.Hour /
        GoTime.Hour) 24 / 98) +
      (((q - (1 + GoTime.goDiv (GoTime.durRound
        (t - fiscal.startDays (y - 2006).toNat * GoTime.nsPerDay) GoTime.Hour /
          GoTime.Hour) 24 / 98)).toNat : Nat) : Int)) from by rw [hcast]]
    apply fiscal.quarterScan_reach
    · omega
    · intro i hi1 hi2
      rw [hcast] at hi2
      refine ⟨_, _, fiscal.Quarter_char y i hy (by omega) (by omega), ?_⟩
      have hmono := fiscal.qmono
        (fiscal.startDays ((y - 2006).toNat + 1) - fiscal.startDays (y - 2006).toNat) i q
        hi2 (by omega)
      rw [hDay, hns]
      omega
    · rw [hcast]
      refine ⟨_, _, fiscal.Quarter_char y q hy hq1 hq2, ?_, ?_⟩
      · rw [hDay, hns]
        omega
      · rw [hDay, hns]
        omega
  · intro p s e hp1 hp2 hP h1 h2 hnw fuel hfuel
    rw [fiscal.Period_char y p hy hp1 hp2] at hP
    simp only [Option.some.injEq, Prod.mk.injEq] at hP
    obtain ⟨hs, he⟩ := hP
    subst hs
    subst he
    rw [hDay, hns] at h1 h2 hnw
    have hps0 := fiscal.pstartOff_nonneg
      (fiscal.startDays ((y - 2006).toNat + 1) - fiscal.startDays (y - 2006).toNat) p hp1
    have hpe := fiscal.pendOff_le
      (fiscal.startDays ((y - 2006).toNat + 1) - fiscal.startDays (y - 2006).toNat) p hL hp2
    have hlow : fiscal.startDays (y - 2006).toNat * GoTime.nsPerDay ≤ t := by
      rw [hns]
      omega
    have hhigh : t ≤ fiscal.startDays ((y - 2006).toNat + 1) * GoTime.nsPerDay - 1 := by
      rw [hns]
      omega
    obtain ⟨s', e', hYcy, hlabel, hstart⟩ := fiscal.classifier_resolve y t hy hcy hlow hhigh
    rw [fiscal.PeriodForDate_eq fuel t s' e' hYcy, hlabel, hstart]
    have hd0 : 0 ≤ t - fiscal.startDays (y - 2006).toNat * GoTime.nsPerDay := by
      rw [hns]
      omega
    have hdsc := fiscal.daysSinceStart_cases
      (t - fiscal.startDays (y - 2006).toNat * GoTime.nsPerDay) hd0
    have hds0 : 0 ≤ GoTime.goDiv (GoTime.durRound
        (t - fiscal.startDays (y - 2006).toNat * GoTime.nsPerDay) GoTime.Hour /
          GoTime.Hour) 24 := by
      rcases hdsc with ⟨_, hh⟩ | ⟨_, hh⟩ <;> rw [hh] <;> rw [hns] at hd0 ⊢ <;> omega
    rw [show (1 : Int) + GoTime.goDiv (GoTime.goDiv (GoTime.durRound
      (t - fiscal.startDays (y - 2006).toNat * GoTime.nsPerDay) GoTime.Hour /
        GoTime.Hour) 24) 35 = 1 + GoTime.goDiv (GoTime.durRound
      (t - fiscal.startDays (y - 2006).toNat * GoTime.nsPerDay) GoTime.Hour /
        GoTime.Hour) 24 / 35 from by rw [fiscal.goDiv_nonneg_eq _ _ hds0]]
    have hseed : 1 + GoTime.goDiv (GoTime.durRound
        (t - fiscal.startDays (y - 2006).toNat * GoTime.nsPerDay) GoTime.Hour /
          GoTime.Hour) 24 / 35 ≤ p := by
      apply fiscal.period_seed
        (fiscal.startDays ((y - 2006).toNat + 1) - fiscal.startDays (y - 2006).toNat) p
        ((t - fiscal.startDays (y - 2006).toNat * GoTime.nsPerDay) / GoTime.nsPerDay)
        _ hL hp1 hp2
      · rw [hns]
        omega
      · rcases hdsc with ⟨_, hh⟩ | ⟨_, hh⟩
        · left
          rw [hh, hns]
        · right
          rw [hh, hns]
      · exact hds0
      · rintro ⟨hp1', hds35⟩
        subst hp1'
        have hps1 : fiscal.pstartOff
            (fiscal.startDays ((y - 2006).toNat + 1) - fiscal.startDays (y - 2006).toNat) 1
            = 0 := by
          rw [fiscal.pstartOff]
          split_ifs <;> norm_num
        have hpe1 : fiscal.pendOff
            (fiscal.startDays ((y - 2006).toNat + 1) - fiscal.startDays (y - 2006).toNat) 1
            = 35 := by
          rw [fiscal.pendOff]
          split_ifs <;> norm_num
        apply hnw
        refine ⟨rfl, ?_⟩
        rcases hdsc with ⟨hc, hh⟩ | ⟨hc, hh⟩
        · rw [hh] at hds35
          rw [hns] at hds35 hc hd0
          omega
        · rw [hh] at hds35
          rw [hns] at hds35 hc hd0
          omega
    have hcast : (1 + GoTime.goDiv (GoTime.durRound
        (t - fiscal.startDays (y - 2006).toNat * GoTime.nsPerDay) GoTime.Hour /
          GoTime.Hour) 24 / 35) +
        (((p - (1 + GoTime.goDiv (GoTime.durRound
          (t - fiscal.startDays (y - 2006).toNat * GoTime.nsPerDay) GoTime.Hour /
            GoTime.Hour) 24 / 35)).toNat : Nat) : Int) = p := by
      omega
    rw [show (some (y, p) : Option (Int × Int)) = some (y, (1 + GoTime.goDiv (GoTime.durRound
      (t - fiscal.startDays (y - 2006).toNat * GoTime.nsPerDay) GoTime.Hour /
        GoTime.Hour) 24 / 35) +
      (((p - (1 + GoTime.goDiv (GoTime.durRound
        (t - fiscal.startDays (y - 2006).toNat * GoTime.nsPerDay) GoTime.Hour /
          GoTime.Hour) 24 / 35)).toNat : Nat) : Int)) from by rw [hcast]]
    apply fiscal.periodScan_reach
    · omega
    · intro i hi1 hi2
      rw [hcast] at hi2
      refine ⟨_, _, fiscal.Period_char y i hy (by omega) (by omega), ?_⟩
      have hmono := fiscal.pmono
        (fiscal.startDays ((y - 2006).toNat + 1) - fiscal.startDays (y - 2006).toNat) i p
        hi2 (by omega)
      rw [hDay, hns]
      omega
    · rw [hcast]
      refine ⟨_, _, fiscal.Period_char y p hy hp1 hp2, ?_, ?_⟩
      · rw [hDay, hns]
        omega
      · rw [hDay, hns]
        omega

/-- Claim C1 counterexample: 2005-10-15 00:00 UTC lies strictly inside
fiscal year 2006, but `YearForDate` labels it 2005 (the code resolves
`Year(2005)`, which aliases to fiscal 2006's boundaries, and then keeps the
calendar year as the label). -/
theorem C1_counterexample :
    fiscal.Year 2006 = some (fiscal.first, fiscal.first + 371 * fiscal.Day - 1) ∧
    fiscal.first < fiscal.first + 20 * fiscal.Day ∧
    fiscal.first + 20 * fiscal.Day < fiscal.first + 371 * fiscal.Day - 1 ∧
    fiscal.YearForDate (fiscal.first + 20 * fiscal.Day) = some 2005 := by
  decide

/-- Witness for C1 at a concrete instant: 2006-04-13, day 200 of fiscal
2006, inside quarter 3. -/
theorem C1_classifier_resolver_agreement_witness :
    fiscal.QuarterForDate 4 (fiscal.first + 200 * fiscal.Day) = some (2006, 3) :=
  (C1_classifier_resolver_agreement 2006 (fiscal.first + 200 * fiscal.Day)
      (by norm_num) (by decide)).2.1
    3 (fiscal.first + 189 * fiscal.Day) (fiscal.first + 280 * fiscal.Day - 1)
    (by norm_num) (by norm_num) (by decide) (by decide) (by decide) (by decide) 4 le_rfl
